import Mathlib

/-!
Verification of the BinanceBot grid-trading bot (src/bot.py, src/order_storage.py).

The embedding models prices and volumes as exact rationals (ℚ), the order
ledger (the sqlite `orders` table) as a list of rows queried by
`find?` on the primary key `order_id`, and the exchange gateway as explicit
fetch-result parameters: a gateway call that can raise `BinanceAPIException`
becomes an `Except Unit` argument.  Exceptions that the Python code does not
catch (the `UnboundLocalError` reached when a filled order's side is neither
BUY nor SELL) are modelled as a dedicated error outcome that aborts the
enclosing fill-processing loop.
-/

namespace BinanceBot

/-- Side constant from `binance.enums` (`SIDE_BUY`). -/
def SIDE_BUY : String := "BUY"

/-- Side constant from `binance.enums` (`SIDE_SELL`). -/
def SIDE_SELL : String := "SELL"

/-- A one-minute candle as returned by `client.get_klines`.  The code reads
only element 4 of each kline, the closing price, so only that field is
modelled. -/
structure Kline where
  close : ℚ
  deriving DecidableEq, Repr

/-- `get_moving_average` (bot.py lines 26-32): raises `ValueError` when the
gateway returns no klines, otherwise returns the mean of the closing
prices.  The `klines` argument is the gateway's response to
`get_klines(symbol, interval=1m, limit=minutes)`. -/
def get_moving_average (klines : List Kline) : Except String ℚ :=
  if klines = [] then .error "No Kline data"
  else
    let close_prices := klines.map Kline.close
    .ok (close_prices.sum / (close_prices.length : ℚ))

/-- The `global` section of settings.json, the fields `place_opposite_order`
reads. -/
structure GlobalSettings where
  fee_percent : ℚ
  confirm_order : Bool := true
  deriving DecidableEq, Repr

/-- A symbol's configuration section, the fields `place_opposite_order`
reads (defaults as in the `.get` calls of bot.py). -/
structure SymbolConfig where
  profit_percent : ℚ
  volume_buy : ℚ
  volume_sell : ℚ
  price_min : ℚ
  price_max : ℚ
  price_precision : Nat := 2
  adaptive_limit_percent : ℚ := 0
  moving_average_period_min : Nat := 0
  deriving DecidableEq, Repr

/-- `f"\x7bprice:.\x7bprice_precision\x7df\x7d"`: rounding a rational to
`n` decimal places, the value the formatted string denotes. -/
def roundPrec (q : ℚ) (n : Nat) : ℚ := (round (q * 10 ^ n) : ℚ) / 10 ^ n

/-- Outcome of one `place_opposite_order` call.  Each constructor records
the local variables (`side`, `volume`, `price`, and for placement attempts
the formatted `price_str`) that are in scope when the function returns on
that path; `unboundLocalError` is the uncaught exception raised at the
`price_str` formatting line when `order_side` matched neither branch. -/
inductive PlaceResult where
  | skippedMin (side : String) (volume price : ℚ)
  | skippedMax (side : String) (volume price : ℚ)
  | skippedAdaptive (side : String) (volume price movingAvg adaptiveLimit : ℚ)
  | maFetchFailed (side : String) (volume price : ℚ)
  | cancelled (side : String) (volume price priceStr : ℚ)
  | placed (side : String) (volume price priceStr : ℚ)
  | placementFailed (side : String) (volume price priceStr : ℚ)
  | unboundLocalError
  deriving DecidableEq, Repr

/-- The counter-order side chosen on this path (none when the function
raised before `side` was bound). -/
def PlaceResult.counterSide : PlaceResult → Option String
  | .skippedMin s _ _ => some s
  | .skippedMax s _ _ => some s
  | .skippedAdaptive s _ _ _ _ => some s
  | .maFetchFailed s _ _ => some s
  | .cancelled s _ _ _ => some s
  | .placed s _ _ _ => some s
  | .placementFailed s _ _ _ => some s
  | .unboundLocalError => none

/-- The counter-order volume chosen on this path. -/
def PlaceResult.counterVolume : PlaceResult → Option ℚ
  | .skippedMin _ v _ => some v
  | .skippedMax _ v _ => some v
  | .skippedAdaptive _ v _ _ _ => some v
  | .maFetchFailed _ v _ => some v
  | .cancelled _ v _ _ => some v
  | .placed _ v _ _ => some v
  | .placementFailed _ v _ _ => some v
  | .unboundLocalError => none

/-- The unrounded computed counter-order price on this path. -/
def PlaceResult.counterPrice : PlaceResult → Option ℚ
  | .skippedMin _ _ p => some p
  | .skippedMax _ _ p => some p
  | .skippedAdaptive _ _ p _ _ => some p
  | .maFetchFailed _ _ p => some p
  | .cancelled _ _ p _ => some p
  | .placed _ _ p _ => some p
  | .placementFailed _ _ p _ => some p
  | .unboundLocalError => none

/-- The outcome is the lower-bound skip (`price < price_min`). -/
def PlaceResult.isMinSkip : PlaceResult → Bool
  | .skippedMin _ _ _ => true
  | _ => false

/-- The outcome is the upper-bound skip (`price > price_max`). -/
def PlaceResult.isMaxSkip : PlaceResult → Bool
  | .skippedMax _ _ _ => true
  | _ => false

/-- The outcome is one of the two price-bounds skips. -/
def PlaceResult.isBoundsSkip (r : PlaceResult) : Bool :=
  r.isMinSkip || r.isMaxSkip

/-- The outcome is the adaptive-limit skip. -/
def PlaceResult.isAdaptiveSkip : PlaceResult → Bool
  | .skippedAdaptive _ _ _ _ _ => true
  | _ => false

/-- The outcome is the moving-average-fetch failure skip. -/
def PlaceResult.isMaFetchFailed : PlaceResult → Bool
  | .maFetchFailed _ _ _ => true
  | _ => false

/-- The placement call was made and raised `BinanceAPIException`. -/
def PlaceResult.isPlacementFailed : PlaceResult → Bool
  | .placementFailed _ _ _ _ => true
  | _ => false

/-- The tail of `place_opposite_order` from the `price_str` formatting line
on (bot.py lines 104-124): format the price, ask for confirmation when
`confirm` is set, then call `client.create_order`, which either succeeds or
raises a logged-and-swallowed `BinanceAPIException`.  `userConfirms` is the
user answering `y`; `placementSucceeds` is the gateway accepting the
order. -/
def confirmAndPlace (side : String) (volume price : ℚ) (price_precision : Nat)
    (confirm userConfirms placementSucceeds : Bool) : PlaceResult :=
  let price_str := roundPrec price price_precision
  if confirm ∧ userConfirms = false then .cancelled side volume price price_str
  else if placementSucceeds then .placed side volume price price_str
  else .placementFailed side volume price price_str

/-- The `try` block around `get_moving_average` in `place_opposite_order`:
either the `get_klines` gateway call raises (`klinesResult = .error`) or
`get_moving_average` itself raises `ValueError`; both are caught by the
same `except Exception`. -/
def fetchMovingAverage (klinesResult : Except Unit (List Kline)) : Except Unit ℚ :=
  match klinesResult with
  | .error _ => .error ()
  | .ok ks =>
    match get_moving_average ks with
    | .error _ => .error ()
    | .ok q => .ok q

/-- `place_opposite_order` (bot.py lines 56-124).  `order_side` and
`order_price` are the filled order's fields; `klinesResult` is the gateway's
response to the kline fetch the adaptive guard may perform. -/
def place_opposite_order (order_side : String) (order_price : ℚ)
    (settings : GlobalSettings) (symbol_config : SymbolConfig)
    (klinesResult : Except Unit (List Kline))
    (userConfirms placementSucceeds : Bool) : PlaceResult :=
  let fee := settings.fee_percent / 100
  let profit := symbol_config.profit_percent / 100
  let confirm := settings.confirm_order
  let price_min := symbol_config.price_min
  let price_max := symbol_config.price_max
  let price_precision := symbol_config.price_precision
  if order_side = SIDE_BUY then
    let volume := symbol_config.volume_sell
    let price := order_price + (order_price * profit) + ((order_price * volume) * fee)
    let side := SIDE_SELL
    if price < price_min then .skippedMin side volume price
    else confirmAndPlace side volume price price_precision confirm userConfirms placementSucceeds
  else if order_side = SIDE_SELL then
    let volume := symbol_config.volume_buy
    let price := order_price - (order_price * profit) - ((order_price * volume) * fee)
    let side := SIDE_BUY
    if price < price_min then .skippedMin side volume price
    else if price > price_max then .skippedMax side volume price
    else
      let adaptive_percent := symbol_config.adaptive_limit_percent
      let ma_period := symbol_config.moving_average_period_min
      if adaptive_percent > 0 ∧ ma_period > 0 then
        match fetchMovingAverage klinesResult with
        | .error _ => .maFetchFailed side volume price
        | .ok moving_avg =>
          let adaptive_limit := moving_avg * (1 + adaptive_percent / 100)
          if price > adaptive_limit then
            .skippedAdaptive side volume price moving_avg adaptive_limit
          else confirmAndPlace side volume price price_precision confirm userConfirms placementSucceeds
      else confirmAndPlace side volume price price_precision confirm userConfirms placementSucceeds
  else .unboundLocalError

/-- A dict from `client.get_open_orders` as consumed by the code: the keys
`orderId`, `symbol`, `side`, `price`, `origQty`. -/
structure LiveOrder where
  orderId : Nat
  symbol : String
  side : String
  price : ℚ
  origQty : ℚ
  deriving DecidableEq, Repr

/-- A row of the `orders` table (order_storage.py lines 7-15). -/
structure Order where
  order_id : Nat
  symbol : String
  side : String
  price : ℚ
  volume : ℚ
  status : String
  created_at : Nat
  deriving DecidableEq, Repr

/-- `session.query(Order).filter_by(order_id=oid).first()`. -/
def findOrder (db : List Order) (oid : Nat) : Option Order :=
  db.find? (fun r => r.order_id == oid)

/-- Set the status of the first row with the given id; leave the table
unchanged when no row matches (the `if order:` guard). -/
def setStatusFirst : List Order → Nat → String → List Order
  | [], _, _ => []
  | r :: rs, oid, st =>
    if r.order_id == oid then { r with status := st } :: rs
    else r :: setStatusFirst rs oid st

/-- One iteration of the loop in `save_or_update_orders`
(order_storage.py lines 23-37): refresh an existing row's status to OPEN,
or insert a fresh OPEN row. -/
def save_or_update_order (db : List Order) (o : LiveOrder) (now : Nat) : List Order :=
  if (findOrder db o.orderId).isSome then
    setStatusFirst db o.orderId "OPEN"
  else
    db ++ [{ order_id := o.orderId, symbol := o.symbol, side := o.side,
             price := o.price, volume := o.origQty, status := "OPEN",
             created_at := now }]

/-- `save_or_update_orders` (order_storage.py lines 21-38). -/
def save_or_update_orders (db : List Order) (order_list : List LiveOrder)
    (now : Nat) : List Order :=
  order_list.foldl (fun d o => save_or_update_order d o now) db

/-- `get_filled_orders` (order_storage.py lines 40-42): despite the name,
returns the rows still marked OPEN for the given symbols. -/
def get_filled_orders (db : List Order) (active_symbols : List String) : List Order :=
  db.filter (fun o => o.status == "OPEN" && active_symbols.contains o.symbol)

/-- `mark_order_filled` (order_storage.py lines 44-49). -/
def mark_order_filled (db : List Order) (oid : Nat) : List Order :=
  setStatusFirst db oid "FILLED"

/-- Status of the row with the given id. -/
def orderStatus (db : List Order) (oid : Nat) : Option String :=
  (findOrder db oid).map Order.status

/-- One ledger mutation as issued by the reconciliation loop. -/
inductive LedgerOp where
  | upsert (order_list : List LiveOrder) (now : Nat)
  | markFilled (order_id : Nat)
  deriving DecidableEq, Repr

/-- Apply one ledger mutation. -/
def applyLedgerOp (db : List Order) : LedgerOp → List Order
  | .upsert order_list now => save_or_update_orders db order_list now
  | .markFilled oid => mark_order_filled db oid

/-- Apply a sequence of ledger mutations, oldest first. -/
def applyLedgerOps (db : List Order) (ops : List LedgerOp) : List Order :=
  ops.foldl applyLedgerOp db

/-- `get_open_orders` (bot.py lines 41-46): a gateway error is caught,
logged, and turned into the empty list. -/
def get_open_orders (fetch : Except Unit (List LiveOrder)) : List LiveOrder :=
  match fetch with
  | .ok l => l
  | .error _ => []

/-- `get_current_price` (bot.py lines 48-54): a gateway error is caught,
logged, and turned into `None`. -/
def get_current_price (fetch : Except Unit ℚ) : Option ℚ :=
  match fetch with
  | .ok p => some p
  | .error _ => none

/-- The fill-processing loop of `main` (bot.py lines 151-155): for each
vanished order, call `place_opposite_order` then `mark_order_filled`.  An
uncaught exception inside `place_opposite_order` (the
`unboundLocalError` outcome) aborts the loop before `mark_order_filled`
runs; the third component reports whether that happened. -/
def processFills (settings : GlobalSettings) (cfg : SymbolConfig)
    (klinesResult : Except Unit (List Kline)) (userConfirms placementSucceeds : Bool)
    (db : List Order) : List Order → List Order × List PlaceResult × Bool
  | [] => (db, [], false)
  | o :: rest =>
    let r := place_opposite_order o.side o.price settings cfg klinesResult
               userConfirms placementSucceeds
    if r = PlaceResult.unboundLocalError then (db, [r], true)
    else
      let out := processFills settings cfg klinesResult userConfirms placementSucceeds
                   (mark_order_filled db o.order_id) rest
      (out.1, r :: out.2.1, out.2.2)

/-- Fate of the per-symbol status line `print` (bot.py line 159):
`typeError` is the uncaught `TypeError` raised by formatting
`current_price` with `:.4f` when it is `None`; `notReached` means an
earlier exception already aborted the symbol's cycle. -/
inductive RenderOutcome where
  | rendered (price : ℚ)
  | typeError
  | notReached
  deriving DecidableEq, Repr

/-- Everything one symbol's slice of the polling loop produced. -/
structure CycleResult where
  db : List Order
  results : List PlaceResult
  crashed : Bool
  render : RenderOutcome
  deriving DecidableEq, Repr

/-- One symbol's slice of the polling loop in `main` (bot.py lines
143-165): fetch price and open orders, upsert, detect fills, process
them, then render the status line.  The three `Except` arguments are the
gateway's responses this cycle. -/
def cycleSymbol (db : List Order) (symbol : String) (settings : GlobalSettings)
    (cfg : SymbolConfig) (priceFetch : Except Unit ℚ)
    (ordersFetch : Except Unit (List LiveOrder))
    (klinesResult : Except Unit (List Kline))
    (userConfirms placementSucceeds : Bool) (now : Nat) : CycleResult :=
  let current_price := get_current_price priceFetch
  let open_orders := get_open_orders ordersFetch
  let db1 := save_or_update_orders db open_orders now
  let existing_orders := get_filled_orders db1 [symbol]
  let open_order_ids := open_orders.map LiveOrder.orderId
  let fills := existing_orders.filter (fun o => !(open_order_ids.contains o.order_id))
  let out := processFills settings cfg klinesResult userConfirms placementSucceeds db1 fills
  let render :=
    if out.2.2 then RenderOutcome.notReached
    else
      match current_price with
      | none => RenderOutcome.typeError
      | some p => RenderOutcome.rendered (roundPrec p 4)
  { db := out.1, results := out.2.1, crashed := out.2.2, render := render }

/-! ## Helper lemmas about the pricing engine -/

theorem confirmAndPlace_counterSide (s : String) (v p : ℚ) (n : Nat) (c u pl : Bool) :
    (confirmAndPlace s v p n c u pl).counterSide = some s := by
  unfold confirmAndPlace
  split
  · rfl
  · split <;> rfl

theorem confirmAndPlace_counterVolume (s : String) (v p : ℚ) (n : Nat) (c u pl : Bool) :
    (confirmAndPlace s v p n c u pl).counterVolume = some v := by
  unfold confirmAndPlace
  split
  · rfl
  · split <;> rfl

theorem confirmAndPlace_counterPrice (s : String) (v p : ℚ) (n : Nat) (c u pl : Bool) :
    (confirmAndPlace s v p n c u pl).counterPrice = some p := by
  unfold confirmAndPlace
  split
  · rfl
  · split <;> rfl

theorem confirmAndPlace_not_minSkip (s : String) (v p : ℚ) (n : Nat) (c u pl : Bool) :
    (confirmAndPlace s v p n c u pl).isMinSkip = false := by
  unfold confirmAndPlace
  split
  · rfl
  · split <;> rfl

theorem confirmAndPlace_not_maxSkip (s : String) (v p : ℚ) (n : Nat) (c u pl : Bool) :
    (confirmAndPlace s v p n c u pl).isMaxSkip = false := by
  unfold confirmAndPlace
  split
  · rfl
  · split <;> rfl

theorem confirmAndPlace_not_adaptiveSkip (s : String) (v p : ℚ) (n : Nat) (c u pl : Bool) :
    (confirmAndPlace s v p n c u pl).isAdaptiveSkip = false := by
  unfold confirmAndPlace
  split
  · rfl
  · split <;> rfl

theorem confirmAndPlace_not_maFetchFailed (s : String) (v p : ℚ) (n : Nat) (c u pl : Bool) :
    (confirmAndPlace s v p n c u pl).isMaFetchFailed = false := by
  unfold confirmAndPlace
  split
  · rfl
  · split <;> rfl

theorem confirmAndPlace_ne_unbound (s : String) (v p : ℚ) (n : Nat) (c u pl : Bool) :
    confirmAndPlace s v p n c u pl ≠ PlaceResult.unboundLocalError := by
  unfold confirmAndPlace
  split
  · exact fun h => PlaceResult.noConfusion h
  · split <;> exact fun h => PlaceResult.noConfusion h

/-- The engine's reaction to a BUY-side fill, with the guards still
unevaluated (code form of the price). -/
theorem place_buy_eq (order_price : ℚ) (settings : GlobalSettings)
    (cfg : SymbolConfig) (kr : Except Unit (List Kline)) (uc ps : Bool) :
    place_opposite_order SIDE_BUY order_price settings cfg kr uc ps
      = (if order_price + order_price * (cfg.profit_percent / 100)
            + order_price * cfg.volume_sell * (settings.fee_percent / 100) < cfg.price_min
         then PlaceResult.skippedMin SIDE_SELL cfg.volume_sell
                (order_price + order_price * (cfg.profit_percent / 100)
                  + order_price * cfg.volume_sell * (settings.fee_percent / 100))
         else confirmAndPlace SIDE_SELL cfg.volume_sell
                (order_price + order_price * (cfg.profit_percent / 100)
                  + order_price * cfg.volume_sell * (settings.fee_percent / 100))
                cfg.price_precision settings.confirm_order uc ps) := by
  unfold place_opposite_order
  rw [if_pos rfl]

/-- The engine's reaction to a SELL-side fill, with the guards still
unevaluated (code form of the price). -/
theorem place_sell_eq (order_price : ℚ) (settings : GlobalSettings)
    (cfg : SymbolConfig) (kr : Except Unit (List Kline)) (uc ps : Bool) :
    place_opposite_order SIDE_SELL order_price settings cfg kr uc ps
      = (let price := order_price - order_price * (cfg.profit_percent / 100)
                        - order_price * cfg.volume_buy * (settings.fee_percent / 100)
         if price < cfg.price_min then PlaceResult.skippedMin SIDE_BUY cfg.volume_buy price
         else if price > cfg.price_max then PlaceResult.skippedMax SIDE_BUY cfg.volume_buy price
         else if cfg.adaptive_limit_percent > 0 ∧ cfg.moving_average_period_min > 0 then
           match fetchMovingAverage kr with
           | .error _ => PlaceResult.maFetchFailed SIDE_BUY cfg.volume_buy price
           | .ok moving_avg =>
             if price > moving_avg * (1 + cfg.adaptive_limit_percent / 100) then
               PlaceResult.skippedAdaptive SIDE_BUY cfg.volume_buy price moving_avg
                 (moving_avg * (1 + cfg.adaptive_limit_percent / 100))
             else confirmAndPlace SIDE_BUY cfg.volume_buy price cfg.price_precision
                    settings.confirm_order uc ps
         else confirmAndPlace SIDE_BUY cfg.volume_buy price cfg.price_precision
                settings.confirm_order uc ps) := by
  unfold place_opposite_order
  rw [if_neg (by decide : ¬ SIDE_SELL = SIDE_BUY), if_pos rfl]

/-! ## Claims about the pricing formulas -/

/-- C1: for every filled order with side BUY the engine chooses counter side
SELL, volume = volume_sell, and counter price
filled_price × (1 + profit_percent/100) + filled_price × volume_sell × (fee_percent/100);
in particular filled price 100, profit 1 %, fee 0.1 %, volume_sell 2 gives
101.2. -/
theorem buy_fill_pricing :
    (∀ (order_price : ℚ) (settings : GlobalSettings) (cfg : SymbolConfig)
       (kr : Except Unit (List Kline)) (uc ps : Bool),
      (place_opposite_order SIDE_BUY order_price settings cfg kr uc ps).counterSide
          = some SIDE_SELL ∧
      (place_opposite_order SIDE_BUY order_price settings cfg kr uc ps).counterVolume
          = some cfg.volume_sell ∧
      (place_opposite_order SIDE_BUY order_price settings cfg kr uc ps).counterPrice
          = some (order_price * (1 + cfg.profit_percent / 100)
              + order_price * cfg.volume_sell * (settings.fee_percent / 100))) ∧
    (place_opposite_order SIDE_BUY 100 { fee_percent := 1/10 }
        { profit_percent := 1, volume_buy := 1, volume_sell := 2,
          price_min := 0, price_max := 1000 }
        (Except.error ()) true true).counterPrice = some (101.2 : ℚ) := by
  constructor
  · intro order_price settings cfg kr uc ps
    rw [place_buy_eq]
    refine ⟨?_, ?_, ?_⟩ <;> (repeat' split) <;>
      first
        | rfl
        | exact confirmAndPlace_counterSide _ _ _ _ _ _ _
        | exact confirmAndPlace_counterVolume _ _ _ _ _ _ _
        | (rw [confirmAndPlace_counterPrice]; exact congrArg Option.some (by ring))
        | exact congrArg Option.some (by ring)
  · rw [place_buy_eq]
    norm_num [confirmAndPlace_counterPrice]

/-- C2: for every filled order with side SELL the engine chooses counter side
BUY, volume = volume_buy, and counter price
filled_price × (1 − profit_percent/100) − filled_price × volume_buy × (fee_percent/100);
in particular filled price 100, profit 1 %, fee 0.1 %, volume_buy 1 gives
98.9. -/
theorem sell_fill_pricing :
    (∀ (order_price : ℚ) (settings : GlobalSettings) (cfg : SymbolConfig)
       (kr : Except Unit (List Kline)) (uc ps : Bool),
      (place_opposite_order SIDE_SELL order_price settings cfg kr uc ps).counterSide
          = some SIDE_BUY ∧
      (place_opposite_order SIDE_SELL order_price settings cfg kr uc ps).counterVolume
          = some cfg.volume_buy ∧
      (place_opposite_order SIDE_SELL order_price settings cfg kr uc ps).counterPrice
          = some (order_price * (1 - cfg.profit_percent / 100)
              - order_price * cfg.volume_buy * (settings.fee_percent / 100))) ∧
    (place_opposite_order SIDE_SELL 100 { fee_percent := 1/10 }
        { profit_percent := 1, volume_buy := 1, volume_sell := 2,
          price_min := 0, price_max := 1000 }
        (Except.error ()) true true).counterPrice = some (98.9 : ℚ) := by
  constructor
  · intro order_price settings cfg kr uc ps
    rw [place_sell_eq]
    refine ⟨?_, ?_, ?_⟩ <;> simp only [] <;> (repeat' split) <;>
      first
        | rfl
        | exact confirmAndPlace_counterSide _ _ _ _ _ _ _
        | exact confirmAndPlace_counterVolume _ _ _ _ _ _ _
        | (rw [confirmAndPlace_counterPrice]; exact congrArg Option.some (by ring))
        | exact congrArg Option.some (by ring)
  · rw [place_sell_eq]
    norm_num [confirmAndPlace_counterPrice]

/-- C6: the price-bounds guard compares the unrounded computed price; a SELL
counter-order (BUY fill) is bounds-skipped iff price < price_min, with no
upper-bound check, and a BUY counter-order (SELL fill) is bounds-skipped iff
price < price_min or price > price_max. -/
theorem bounds_guard :
    (∀ (order_price : ℚ) (settings : GlobalSettings) (cfg : SymbolConfig)
       (kr : Except Unit (List Kline)) (uc ps : Bool),
      ((place_opposite_order SIDE_BUY order_price settings cfg kr uc ps).isBoundsSkip = true ↔
        order_price + order_price * (cfg.profit_percent / 100)
          + order_price * cfg.volume_sell * (settings.fee_percent / 100) < cfg.price_min) ∧
      (place_opposite_order SIDE_BUY order_price settings cfg kr uc ps).isMaxSkip = false) ∧
    (∀ (order_price : ℚ) (settings : GlobalSettings) (cfg : SymbolConfig)
       (kr : Except Unit (List Kline)) (uc ps : Bool),
      ((place_opposite_order SIDE_SELL order_price settings cfg kr uc ps).isBoundsSkip = true ↔
        (order_price - order_price * (cfg.profit_percent / 100)
           - order_price * cfg.volume_buy * (settings.fee_percent / 100) < cfg.price_min ∨
         order_price - order_price * (cfg.profit_percent / 100)
           - order_price * cfg.volume_buy * (settings.fee_percent / 100) > cfg.price_max))) := by
  constructor
  · intro order_price settings cfg kr uc ps
    constructor
    · rw [place_buy_eq]
      split
      · next h =>
        simpa [PlaceResult.isBoundsSkip, PlaceResult.isMinSkip, PlaceResult.isMaxSkip]
          using h
      · next h =>
        simp [PlaceResult.isBoundsSkip, confirmAndPlace_not_minSkip,
          confirmAndPlace_not_maxSkip, h]
    · rw [place_buy_eq]
      split
      · rfl
      · exact confirmAndPlace_not_maxSkip _ _ _ _ _ _ _
  · intro order_price settings cfg kr uc ps
    rw [place_sell_eq]
    simp only []
    repeat' split
    all_goals
      first
        | (simp only [PlaceResult.isBoundsSkip, confirmAndPlace_not_minSkip,
             confirmAndPlace_not_maxSkip]
           simp [*]
           done)
        | (simp [PlaceResult.isBoundsSkip, PlaceResult.isMinSkip, PlaceResult.isMaxSkip, *]
           done)

/-- C5: for SELL-side fills with both adaptive settings positive and the
min/max guards passed, the engine computes
adaptive_limit = moving_average × (1 + adaptive_limit_percent/100) and skips
whenever the computed price exceeds it, skips when the moving-average fetch
fails, and otherwise proceeds to placement; the guard never fires on
BUY-side fills; the spec's example (MA 100, adaptive 2 %, price 103,
limit 102) skips. -/
theorem adaptive_guard :
    (∀ (order_price : ℚ) (settings : GlobalSettings) (cfg : SymbolConfig)
       (kr : Except Unit (List Kline)) (uc ps : Bool) (moving_avg : ℚ),
      0 < cfg.adaptive_limit_percent → 0 < cfg.moving_average_period_min →
      ¬ (order_price - order_price * (cfg.profit_percent / 100)
           - order_price * cfg.volume_buy * (settings.fee_percent / 100) < cfg.price_min) →
      ¬ (order_price - order_price * (cfg.profit_percent / 100)
           - order_price * cfg.volume_buy * (settings.fee_percent / 100) > cfg.price_max) →
      fetchMovingAverage kr = Except.ok moving_avg →
      ((order_price - order_price * (cfg.profit_percent / 100)
           - order_price * cfg.volume_buy * (settings.fee_percent / 100)
           > moving_avg * (1 + cfg.adaptive_limit_percent / 100) →
        place_opposite_order SIDE_SELL order_price settings cfg kr uc ps
          = PlaceResult.skippedAdaptive SIDE_BUY cfg.volume_buy
              (order_price - order_price * (cfg.profit_percent / 100)
                - order_price * cfg.volume_buy * (settings.fee_percent / 100))
              moving_avg (moving_avg * (1 + cfg.adaptive_limit_percent / 100))) ∧
       (¬ (order_price - order_price * (cfg.profit_percent / 100)
             - order_price * cfg.volume_buy * (settings.fee_percent / 100)
             > moving_avg * (1 + cfg.adaptive_limit_percent / 100)) →
        place_opposite_order SIDE_SELL order_price settings cfg kr uc ps
          = confirmAndPlace SIDE_BUY cfg.volume_buy
              (order_price - order_price * (cfg.profit_percent / 100)
                - order_price * cfg.volume_buy * (settings.fee_percent / 100))
              cfg.price_precision settings.confirm_order uc ps))) ∧
    (∀ (order_price : ℚ) (settings : GlobalSettings) (cfg : SymbolConfig)
       (kr : Except Unit (List Kline)) (uc ps : Bool),
      0 < cfg.adaptive_limit_percent → 0 < cfg.moving_average_period_min →
      ¬ (order_price - order_price * (cfg.profit_percent / 100)
           - order_price * cfg.volume_buy * (settings.fee_percent / 100) < cfg.price_min) →
      ¬ (order_price - order_price * (cfg.profit_percent / 100)
           - order_price * cfg.volume_buy * (settings.fee_percent / 100) > cfg.price_max) →
      fetchMovingAverage kr = Except.error () →
      place_opposite_order SIDE_SELL order_price settings cfg kr uc ps
        = PlaceResult.maFetchFailed SIDE_BUY cfg.volume_buy
            (order_price - order_price * (cfg.profit_percent / 100)
              - order_price * cfg.volume_buy * (settings.fee_percent / 100))) ∧
    (∀ (order_price : ℚ) (settings : GlobalSettings) (cfg : SymbolConfig)
       (kr : Except Unit (List Kline)) (uc ps : Bool),
      (place_opposite_order SIDE_BUY order_price settings cfg kr uc ps).isAdaptiveSkip
          = false ∧
      (place_opposite_order SIDE_BUY order_price settings cfg kr uc ps).isMaFetchFailed
          = false) ∧
    place_opposite_order SIDE_SELL 103 { fee_percent := 0, confirm_order := true }
        { profit_percent := 0, volume_buy := 1, volume_sell := 1, price_min := 0,
          price_max := 1000, adaptive_limit_percent := 2, moving_average_period_min := 5 }
        (Except.ok [{ close := 100 }]) true true
      = PlaceResult.skippedAdaptive SIDE_BUY 1 103 100 102 := by
  refine ⟨?_, ?_, ?_, ?_⟩
  · intro order_price settings cfg kr uc ps moving_avg hap hmp hmin hmax hfetch
    rw [place_sell_eq]
    simp only []
    rw [if_neg hmin, if_neg hmax, if_pos ⟨hap, hmp⟩]
    constructor
    · intro h
      split
      · rename_i a heq
        rw [hfetch] at heq
        exact Except.noConfusion heq
      · rename_i mv heq
        rw [hfetch] at heq
        injection heq with h2
        subst h2
        rw [if_pos h]
    · intro h
      split
      · rename_i a heq
        rw [hfetch] at heq
        exact Except.noConfusion heq
      · rename_i mv heq
        rw [hfetch] at heq
        injection heq with h2
        subst h2
        rw [if_neg h]
  · intro order_price settings cfg kr uc ps hap hmp hmin hmax hfetch
    rw [place_sell_eq]
    simp only []
    rw [if_neg hmin, if_neg hmax, if_pos ⟨hap, hmp⟩]
    split
    · rfl
    · rename_i mv heq
      rw [hfetch] at heq
      exact Except.noConfusion heq
  · intro order_price settings cfg kr uc ps
    constructor
    · rw [place_buy_eq]
      split
      · rfl
      · exact confirmAndPlace_not_adaptiveSkip _ _ _ _ _ _ _
    · rw [place_buy_eq]
      split
      · rfl
      · exact confirmAndPlace_not_maFetchFailed _ _ _ _ _ _ _
  · rw [place_sell_eq]
    norm_num [fetchMovingAverage, get_moving_average]

/-- C10: `place_opposite_order` is well-defined only for sides BUY and SELL:
for those sides every path has the counter side, volume, and price bound;
for any other side value the uncaught `UnboundLocalError` at the
price-formatting line is reached. -/
theorem side_precondition :
    (∀ (order_side : String) (order_price : ℚ) (settings : GlobalSettings)
       (cfg : SymbolConfig) (kr : Except Unit (List Kline)) (uc ps : Bool),
      order_side ≠ SIDE_BUY → order_side ≠ SIDE_SELL →
      place_opposite_order order_side order_price settings cfg kr uc ps
        = PlaceResult.unboundLocalError) ∧
    (∀ (order_side : String) (order_price : ℚ) (settings : GlobalSettings)
       (cfg : SymbolConfig) (kr : Except Unit (List Kline)) (uc ps : Bool),
      order_side = SIDE_BUY ∨ order_side = SIDE_SELL →
      ((place_opposite_order order_side order_price settings cfg kr uc ps).counterSide.isSome
          = true ∧
       (place_opposite_order order_side order_price settings cfg kr uc ps).counterVolume.isSome
          = true ∧
       (place_opposite_order order_side order_price settings cfg kr uc ps).counterPrice.isSome
          = true)) := by
  constructor
  · intro order_side order_price settings cfg kr uc ps h1 h2
    unfold place_opposite_order
    rw [if_neg h1, if_neg h2]
  · intro order_side order_price settings cfg kr uc ps h
    rcases h with rfl | rfl
    · refine ⟨?_, ?_, ?_⟩ <;> rw [place_buy_eq] <;> (repeat' split) <;>
        first
          | rfl
          | (rw [confirmAndPlace_counterSide]; rfl)
          | (rw [confirmAndPlace_counterVolume]; rfl)
          | (rw [confirmAndPlace_counterPrice]; rfl)
    · refine ⟨?_, ?_, ?_⟩ <;> rw [place_sell_eq] <;> simp only [] <;> (repeat' split) <;>
        first
          | rfl
          | (rw [confirmAndPlace_counterSide]; rfl)
          | (rw [confirmAndPlace_counterVolume]; rfl)
          | (rw [confirmAndPlace_counterPrice]; rfl)

/-- C8: the moving average is the plain arithmetic mean of the closing
prices of the candles the gateway returned, and the data-unavailable error
occurs exactly when the gateway returns no candles. -/
theorem moving_average_spec :
    (∀ klines : List Kline, klines ≠ [] →
      get_moving_average klines
        = Except.ok ((klines.map Kline.close).sum / (klines.length : ℚ))) ∧
    (∀ klines : List Kline,
      (∃ e, get_moving_average klines = Except.error e) ↔ klines = []) := by
  constructor
  · intro klines h
    unfold get_moving_average
    rw [if_neg h]
    simp [List.length_map]
  · intro klines
    constructor
    · rintro ⟨e, he⟩
      by_contra hne
      unfold get_moving_average at he
      rw [if_neg hne] at he
      exact Except.noConfusion he
    · intro h
      subst h
      exact ⟨_, rfl⟩

/-! ## Helper lemmas about the ledger -/

theorem setStatusFirst_cons (a : Order) (as : List Order) (oid : Nat) (st : String) :
    setStatusFirst (a :: as) oid st
      = if a.order_id == oid then { a with status := st } :: as
        else a :: setStatusFirst as oid st := rfl

theorem findOrder_cons (a : Order) (as : List Order) (oid : Nat) :
    findOrder (a :: as) oid = if a.order_id == oid then some a else findOrder as oid := by
  by_cases h : (a.order_id == oid) = true
  · simp [findOrder, h]
  · simp [findOrder, h]

theorem findOrder_setStatusFirst_self (db : List Order) (oid : Nat) (st : String) (r : Order)
    (h : findOrder db oid = some r) :
    findOrder (setStatusFirst db oid st) oid = some { r with status := st } := by
  induction db with
  | nil => simp [findOrder] at h
  | cons a as ih =>
    rw [findOrder_cons] at h
    rw [setStatusFirst_cons]
    by_cases ha : (a.order_id == oid) = true
    · rw [if_pos ha] at h
      injection h with h
      subst h
      simp [findOrder_cons, ha]
    · rw [if_neg ha] at h
      rw [if_neg ha, findOrder_cons, if_neg ha]
      exact ih h

theorem findOrder_setStatusFirst_ne (db : List Order) (oid' oid : Nat) (st : String)
    (h : oid' ≠ oid) :
    findOrder (setStatusFirst db oid' st) oid = findOrder db oid := by
  induction db with
  | nil => rfl
  | cons a as ih =>
    rw [setStatusFirst_cons]
    by_cases ha : (a.order_id == oid') = true
    · have haeq : a.order_id = oid' := by simpa using ha
      rw [if_pos ha, findOrder_cons, findOrder_cons]
      simp [haeq, h]
    · rw [if_neg ha, findOrder_cons, findOrder_cons, ih]

theorem orderStatus_mark_self (db : List Order) (oid : Nat)
    (h : (findOrder db oid).isSome = true) :
    orderStatus (mark_order_filled db oid) oid = some "FILLED" := by
  obtain ⟨r, hr⟩ := Option.isSome_iff_exists.mp h
  unfold orderStatus mark_order_filled
  rw [findOrder_setStatusFirst_self db oid "FILLED" r hr]
  rfl

theorem orderStatus_mark_preserves (db : List Order) (oid' oid : Nat)
    (h : orderStatus db oid = some "FILLED") :
    orderStatus (mark_order_filled db oid') oid = some "FILLED" := by
  by_cases he : oid' = oid
  · subst he
    apply orderStatus_mark_self
    unfold orderStatus at h
    cases hf : findOrder db oid' with
    | none => rw [hf] at h; exact Option.noConfusion h
    | some r => simp [hf]
  · unfold orderStatus mark_order_filled
    rw [findOrder_setStatusFirst_ne db oid' oid _ he]
    exact h

theorem mark_preserves_findOrder_isSome (db : List Order) (oid' oid : Nat)
    (h : (findOrder db oid).isSome = true) :
    (findOrder (mark_order_filled db oid') oid).isSome = true := by
  by_cases he : oid' = oid
  · subst he
    obtain ⟨r, hr⟩ := Option.isSome_iff_exists.mp h
    unfold mark_order_filled
    rw [findOrder_setStatusFirst_self db oid' "FILLED" r hr]
    rfl
  · unfold mark_order_filled
    rw [findOrder_setStatusFirst_ne db oid' oid _ he]
    exact h

theorem findOrder_append_one (db : List Order) (x : Order) (oid : Nat)
    (h : ¬ (x.order_id == oid) = true) :
    findOrder (db ++ [x]) oid = findOrder db oid := by
  induction db with
  | nil =>
    show findOrder (x :: []) oid = none
    rw [findOrder_cons, if_neg h]
    rfl
  | cons a as ih =>
    show findOrder (a :: (as ++ [x])) oid = _
    rw [findOrder_cons, findOrder_cons, ih]

theorem orderStatus_save_or_update_ne (db : List Order) (o : LiveOrder) (now oid : Nat)
    (h : o.orderId ≠ oid) :
    orderStatus (save_or_update_order db o now) oid = orderStatus db oid := by
  unfold save_or_update_order
  split
  · unfold orderStatus
    rw [findOrder_setStatusFirst_ne db o.orderId oid _ h]
  · unfold orderStatus
    rw [findOrder_append_one db _ oid (by simpa using h)]

theorem orderStatus_save_or_update_orders_ne (los : List LiveOrder) (db : List Order)
    (now oid : Nat) (h : ∀ lo ∈ los, lo.orderId ≠ oid) :
    orderStatus (save_or_update_orders db los now) oid = orderStatus db oid := by
  induction los generalizing db with
  | nil => rfl
  | cons lo rest ih =>
    unfold save_or_update_orders at ih ⊢
    rw [List.foldl_cons]
    rw [ih (save_or_update_order db lo now) (fun x hx => h x (List.mem_cons_of_mem _ hx))]
    exact orderStatus_save_or_update_ne db lo now oid (h lo (List.mem_cons_self _ _))

theorem findOrder_of_nodup (db : List Order) (o : Order)
    (hnd : (db.map Order.order_id).Nodup) (ho : o ∈ db) :
    findOrder db o.order_id = some o := by
  induction db with
  | nil => exact absurd ho (List.not_mem_nil o)
  | cons a as ih =>
    rcases List.mem_cons.mp ho with rfl | hmem
    · rw [findOrder_cons, if_pos (by simp)]
    · have hane : a.order_id ≠ o.order_id := by
        intro he
        have hm : a.order_id ∈ as.map Order.order_id := he ▸ List.mem_map_of_mem _ hmem
        exact (List.nodup_cons.mp (by simpa using hnd)).1 hm
      rw [findOrder_cons, if_neg (by simpa using hane)]
      exact ih (List.nodup_cons.mp (by simpa using hnd)).2 hmem

/-- C3 is false as stated: with arbitrary live-order inputs, re-observing a
FILLED order id through `save_or_update_orders` resets its status to OPEN,
a FILLED→OPEN transition within one bot lifetime. -/
theorem ledger_monotonicity_cex :
    orderStatus (applyLedgerOps []
        [LedgerOp.upsert [{ orderId := 1, symbol := "BTCUSDT", side := "BUY",
                            price := 100, origQty := 1 }] 0,
         LedgerOp.markFilled 1]) 1 = some "FILLED" ∧
    orderStatus (applyLedgerOps []
        [LedgerOp.upsert [{ orderId := 1, symbol := "BTCUSDT", side := "BUY",
                            price := 100, origQty := 1 }] 0,
         LedgerOp.markFilled 1,
         LedgerOp.upsert [{ orderId := 1, symbol := "BTCUSDT", side := "BUY",
                            price := 100, origQty := 1 }] 7]) 1 = some "OPEN" := by
  constructor <;> rfl

/-- C3 (amended): once a ledger row is FILLED it stays FILLED under any
further sequence of upsert and markFilled operations, provided no upsert
input re-presents that order_id; `mark_order_filled` alone never reverts a
status. -/
theorem ledger_filled_monotone (db : List Order) (ops : List LedgerOp) (oid : Nat)
    (hf : orderStatus db oid = some "FILLED")
    (hops : ∀ op ∈ ops, ∀ los now, op = LedgerOp.upsert los now →
            ∀ lo ∈ los, lo.orderId ≠ oid) :
    orderStatus (applyLedgerOps db ops) oid = some "FILLED" := by
  induction ops generalizing db with
  | nil => exact hf
  | cons op rest ih =>
    unfold applyLedgerOps at ih ⊢
    rw [List.foldl_cons]
    apply ih
    · cases op with
      | upsert los now =>
        show orderStatus (save_or_update_orders db los now) oid = some "FILLED"
        rw [orderStatus_save_or_update_orders_ne los db now oid
          (hops _ (List.mem_cons_self _ _) los now rfl)]
        exact hf
      | markFilled oid2 =>
        exact orderStatus_mark_preserves db oid2 oid hf
    · intro op2 h2 los now heq lo hlo
      exact hops op2 (List.mem_cons_of_mem _ h2) los now heq lo hlo

theorem ledger_filled_monotone_witness :
    orderStatus (applyLedgerOps
        [{ order_id := 1, symbol := "BTCUSDT", side := "BUY", price := 100,
           volume := 1, status := "FILLED", created_at := 0 }]
        [LedgerOp.markFilled 1,
         LedgerOp.upsert [{ orderId := 2, symbol := "ETHUSDT", side := "SELL",
                            price := 50, origQty := 3 }] 9]) 1 = some "FILLED" :=
  ledger_filled_monotone _ _ 1 rfl
    (by
      intro op hop los now heq lo hlo
      rcases List.mem_cons.mp hop with rfl | hop2
      · exact LedgerOp.noConfusion heq
      · rcases List.mem_cons.mp hop2 with rfl | hop3
        · injection heq with h1 h2
          subst h1
          rcases List.mem_cons.mp hlo with rfl | hnil
          · decide
          · exact absurd hnil (List.not_mem_nil _)
        · exact absurd hop3 (List.not_mem_nil _))

/-! ## Helper lemmas about the fill-processing loop -/

theorem place_ne_unbound (order_side : String) (order_price : ℚ) (settings : GlobalSettings)
    (cfg : SymbolConfig) (kr : Except Unit (List Kline)) (uc ps : Bool)
    (h : order_side = SIDE_BUY ∨ order_side = SIDE_SELL) :
    place_opposite_order order_side order_price settings cfg kr uc ps
      ≠ PlaceResult.unboundLocalError := by
  rcases h with rfl | rfl
  · rw [place_buy_eq]
    split
    · exact fun hc => PlaceResult.noConfusion hc
    · exact confirmAndPlace_ne_unbound _ _ _ _ _ _ _
  · rw [place_sell_eq]
    simp only []
    repeat' split
    all_goals
      first
        | exact fun hc => PlaceResult.noConfusion hc
        | exact confirmAndPlace_ne_unbound _ _ _ _ _ _ _

theorem processFills_cons (settings : GlobalSettings) (cfg : SymbolConfig)
    (kr : Except Unit (List Kline)) (uc ps : Bool) (db : List Order) (o : Order)
    (rest : List Order) :
    processFills settings cfg kr uc ps db (o :: rest)
      = (if place_opposite_order o.side o.price settings cfg kr uc ps
            = PlaceResult.unboundLocalError
         then (db, [place_opposite_order o.side o.price settings cfg kr uc ps], true)
         else
           ((processFills settings cfg kr uc ps (mark_order_filled db o.order_id) rest).1,
            place_opposite_order o.side o.price settings cfg kr uc ps
              :: (processFills settings cfg kr uc ps
                    (mark_order_filled db o.order_id) rest).2.1,
            (processFills settings cfg kr uc ps
               (mark_order_filled db o.order_id) rest).2.2)) := rfl

theorem processFills_no_crash (settings : GlobalSettings) (cfg : SymbolConfig)
    (kr : Except Unit (List Kline)) (uc ps : Bool) (l : List Order) (db : List Order)
    (h : ∀ o ∈ l, o.side = SIDE_BUY ∨ o.side = SIDE_SELL) :
    processFills settings cfg kr uc ps db l
      = (l.foldl (fun d o => mark_order_filled d o.order_id) db,
         l.map (fun o => place_opposite_order o.side o.price settings cfg kr uc ps),
         false) := by
  induction l generalizing db with
  | nil => rfl
  | cons o rest ih =>
    rw [processFills_cons]
    rw [if_neg (place_ne_unbound o.side o.price settings cfg kr uc ps
          (h o (List.mem_cons_self _ _)))]
    rw [ih (mark_order_filled db o.order_id) (fun x hx => h x (List.mem_cons_of_mem _ hx))]
    rfl

theorem processFills_preserves_filled (settings : GlobalSettings) (cfg : SymbolConfig)
    (kr : Except Unit (List Kline)) (uc ps : Bool) (l : List Order) (db : List Order)
    (oid : Nat) (h : orderStatus db oid = some "FILLED") :
    orderStatus (processFills settings cfg kr uc ps db l).1 oid = some "FILLED" := by
  induction l generalizing db with
  | nil => exact h
  | cons o rest ih =>
    rw [processFills_cons]
    by_cases hu : place_opposite_order o.side o.price settings cfg kr uc ps
        = PlaceResult.unboundLocalError
    · rw [if_pos hu]
      exact h
    · rw [if_neg hu]
      exact ih (mark_order_filled db o.order_id)
        (orderStatus_mark_preserves db o.order_id oid h)

theorem foldl_mark_preserves_filled (l : List Order) (db : List Order) (oid : Nat)
    (h : orderStatus db oid = some "FILLED") :
    orderStatus (l.foldl (fun d o => mark_order_filled d o.order_id) db) oid
      = some "FILLED" := by
  induction l generalizing db with
  | nil => exact h
  | cons o rest ih =>
    rw [List.foldl_cons]
    exact ih _ (orderStatus_mark_preserves db o.order_id oid h)

theorem foldl_mark_sets_filled (l : List Order) (db : List Order) (oid : Nat)
    (hrow : (findOrder db oid).isSome = true)
    (hmem : oid ∈ l.map Order.order_id) :
    orderStatus (l.foldl (fun d o => mark_order_filled d o.order_id) db) oid
      = some "FILLED" := by
  induction l generalizing db with
  | nil => simp at hmem
  | cons o rest ih =>
    rw [List.foldl_cons]
    by_cases he : o.order_id = oid
    · subst he
      exact foldl_mark_preserves_filled rest _ _ (orderStatus_mark_self db _ hrow)
    · have hmem1 : oid ∈ o.order_id :: rest.map Order.order_id := by
        rw [List.map_cons] at hmem
        exact hmem
      have hmem2 : oid ∈ rest.map Order.order_id := by
        rcases List.mem_cons.mp hmem1 with h1 | h1
        · exact absurd h1.symm he
        · exact h1
      exact ih _ (mark_preserves_findOrder_isSome db o.order_id oid hrow) hmem2

/-- C7: when the placement call fails with a gateway error, the error is
swallowed (the fill-processing loop goes on to the remaining fills with the
failed result recorded) and `mark_order_filled` still runs, so the ledger
row ends the cycle with status FILLED. -/
theorem placement_failure_still_marks_filled (settings : GlobalSettings)
    (cfg : SymbolConfig) (kr : Except Unit (List Kline)) (uc ps : Bool)
    (db : List Order) (o : Order) (rest : List Order)
    (hfail : (place_opposite_order o.side o.price settings cfg kr uc ps).isPlacementFailed
        = true)
    (hrow : (findOrder db o.order_id).isSome = true) :
    processFills settings cfg kr uc ps db (o :: rest)
      = ((processFills settings cfg kr uc ps (mark_order_filled db o.order_id) rest).1,
         place_opposite_order o.side o.price settings cfg kr uc ps
           :: (processFills settings cfg kr uc ps (mark_order_filled db o.order_id) rest).2.1,
         (processFills settings cfg kr uc ps (mark_order_filled db o.order_id) rest).2.2) ∧
    orderStatus (processFills settings cfg kr uc ps db (o :: rest)).1 o.order_id
      = some "FILLED" := by
  have hne : place_opposite_order o.side o.price settings cfg kr uc ps
      ≠ PlaceResult.unboundLocalError := by
    intro hc
    rw [hc] at hfail
    simp [PlaceResult.isPlacementFailed] at hfail
  constructor
  · rw [processFills_cons, if_neg hne]
  · rw [processFills_cons, if_neg hne]
    exact processFills_preserves_filled settings cfg kr uc ps rest _ _
      (orderStatus_mark_self db _ hrow)

theorem placement_failure_still_marks_filled_witness :
    (place_opposite_order "BUY" 100 { fee_percent := 0, confirm_order := false }
        { profit_percent := 0, volume_buy := 1, volume_sell := 1,
          price_min := 0, price_max := 1000 }
        (Except.error ()) false false).isPlacementFailed = true ∧
    orderStatus
      (processFills { fee_percent := 0, confirm_order := false }
        { profit_percent := 0, volume_buy := 1, volume_sell := 1,
          price_min := 0, price_max := 1000 }
        (Except.error ()) false false
        [{ order_id := 1, symbol := "BTCUSDT", side := "BUY", price := 100,
           volume := 1, status := "OPEN", created_at := 0 }]
        [{ order_id := 1, symbol := "BTCUSDT", side := "BUY", price := 100,
           volume := 1, status := "OPEN", created_at := 0 }]).1 1 = some "FILLED" := by
  have hfail : (place_opposite_order "BUY" 100
      { fee_percent := 0, confirm_order := false }
      { profit_percent := 0, volume_buy := 1, volume_sell := 1,
        price_min := 0, price_max := 1000 }
      (Except.error ()) false false).isPlacementFailed = true := by
    rw [show ("BUY" : String) = SIDE_BUY from rfl, place_buy_eq]
    norm_num [confirmAndPlace, PlaceResult.isPlacementFailed]
  refine ⟨hfail, ?_⟩
  exact (placement_failure_still_marks_filled
    { fee_percent := 0, confirm_order := false }
    { profit_percent := 0, volume_buy := 1, volume_sell := 1,
      price_min := 0, price_max := 1000 }
    (Except.error ()) false false
    [{ order_id := 1, symbol := "BTCUSDT", side := "BUY", price := 100,
       volume := 1, status := "OPEN", created_at := 0 }]
    { order_id := 1, symbol := "BTCUSDT", side := "BUY", price := 100,
      volume := 1, status := "OPEN", created_at := 0 }
    [] hfail rfl).2

/-! ## Claims about the per-symbol polling cycle -/

theorem cycleSymbol_open_nil (db : List Order) (symbol : String)
    (settings : GlobalSettings) (cfg : SymbolConfig) (priceFetch : Except Unit ℚ)
    (ordersFetch : Except Unit (List LiveOrder)) (kr : Except Unit (List Kline))
    (uc ps : Bool) (now : Nat) (h : get_open_orders ordersFetch = []) :
    cycleSymbol db symbol settings cfg priceFetch ordersFetch kr uc ps now
      = { db := (processFills settings cfg kr uc ps db (get_filled_orders db [symbol])).1,
          results :=
            (processFills settings cfg kr uc ps db (get_filled_orders db [symbol])).2.1,
          crashed :=
            (processFills settings cfg kr uc ps db (get_filled_orders db [symbol])).2.2,
          render :=
            if (processFills settings cfg kr uc ps db (get_filled_orders db [symbol])).2.2
            then RenderOutcome.notReached
            else
              match get_current_price priceFetch with
              | none => RenderOutcome.typeError
              | some p => RenderOutcome.rendered (roundPrec p 4) } := by
  unfold cycleSymbol
  rw [h]
  simp only [save_or_update_orders, List.foldl_nil, List.map_nil]
  have hfilter : ∀ l : List Order,
      List.filter (fun o => ! List.contains ([] : List Nat) o.order_id) l = l :=
    fun l => List.filter_eq_self.mpr (fun a _ => rfl)
  simp only [hfilter]

/-- C9: when the open-orders fetch fails (yielding the empty list), every
OPEN ledger row for that symbol is treated as newly filled in the same
cycle: the pricing engine is invoked for each of them and each row's status
becomes FILLED. -/
theorem open_fetch_failure_treats_all_as_filled (db : List Order) (symbol : String)
    (settings : GlobalSettings) (cfg : SymbolConfig) (priceFetch : Except Unit ℚ)
    (kr : Except Unit (List Kline)) (uc ps : Bool) (now : Nat)
    (hnd : (db.map Order.order_id).Nodup)
    (hsides : ∀ o ∈ db, o.side = SIDE_BUY ∨ o.side = SIDE_SELL) :
    (cycleSymbol db symbol settings cfg priceFetch (Except.error ()) kr uc ps now).results
      = (get_filled_orders db [symbol]).map
          (fun o => place_opposite_order o.side o.price settings cfg kr uc ps) ∧
    ∀ o ∈ db, o.symbol = symbol → o.status = "OPEN" →
      orderStatus
        (cycleSymbol db symbol settings cfg priceFetch (Except.error ()) kr uc ps now).db
        o.order_id = some "FILLED" := by
  have hfills : ∀ o ∈ get_filled_orders db [symbol],
      o.side = SIDE_BUY ∨ o.side = SIDE_SELL :=
    fun o ho => hsides o (List.mem_of_mem_filter ho)
  have hpf := processFills_no_crash settings cfg kr uc ps (get_filled_orders db [symbol])
    db hfills
  rw [cycleSymbol_open_nil db symbol settings cfg priceFetch (Except.error ()) kr uc ps now
    rfl]
  constructor
  · rw [hpf]
  · intro o ho hsym hst
    rw [hpf]
    apply foldl_mark_sets_filled
    · rw [findOrder_of_nodup db o hnd ho]
      rfl
    · apply List.mem_map_of_mem
      unfold get_filled_orders
      apply List.mem_filter.mpr
      refine ⟨ho, ?_⟩
      simp [hst, hsym]

theorem open_fetch_failure_witness :
    (cycleSymbol
        [{ order_id := 1, symbol := "BTCUSDT", side := "BUY", price := 100,
           volume := 1, status := "OPEN", created_at := 0 }]
        "BTCUSDT" { fee_percent := 1/10, confirm_order := false }
        { profit_percent := 1, volume_buy := 1, volume_sell := 2,
          price_min := 0, price_max := 1000 }
        (Except.ok 250) (Except.error ()) (Except.error ()) true true 5).results
      = (get_filled_orders
            [{ order_id := 1, symbol := "BTCUSDT", side := "BUY", price := 100,
               volume := 1, status := "OPEN", created_at := 0 }] ["BTCUSDT"]).map
          (fun o => place_opposite_order o.side o.price
            { fee_percent := 1/10, confirm_order := false }
            { profit_percent := 1, volume_buy := 1, volume_sell := 2,
              price_min := 0, price_max := 1000 }
            (Except.error ()) true true) ∧
    ∀ o ∈ [({ order_id := 1, symbol := "BTCUSDT", side := "BUY", price := 100,
              volume := 1, status := "OPEN", created_at := 0 } : Order)],
      o.symbol = "BTCUSDT" → o.status = "OPEN" →
      orderStatus
        (cycleSymbol
          [{ order_id := 1, symbol := "BTCUSDT", side := "BUY", price := 100,
             volume := 1, status := "OPEN", created_at := 0 }]
          "BTCUSDT" { fee_percent := 1/10, confirm_order := false }
          { profit_percent := 1, volume_buy := 1, volume_sell := 2,
            price_min := 0, price_max := 1000 }
          (Except.ok 250) (Except.error ()) (Except.error ()) true true 5).db
        o.order_id = some "FILLED" :=
  open_fetch_failure_treats_all_as_filled _ "BTCUSDT" _ _ _ _ _ _ _
    (by decide) (by decide)

/-- C4: evaluation of the code at the failing input.  When the price fetch
fails, the price is `None` and reconciliation and fill handling do run to
completion (the fill below ends FILLED with its placement result recorded,
and no exception occurred before rendering), but the status-line rendering
then raises `TypeError` (formatting `None` with `:.4f`) instead of
occurring, contradicting the claim that the cycle runs to completion. -/
theorem price_fetch_failure_breaks_render :
    get_current_price (Except.error ()) = none ∧
    (cycleSymbol
        [{ order_id := 1, symbol := "BTCUSDT", side := "BUY", price := 100,
           volume := 1, status := "OPEN", created_at := 0 }]
        "BTCUSDT" { fee_percent := 1/10, confirm_order := false }
        { profit_percent := 1, volume_buy := 1, volume_sell := 2,
          price_min := 0, price_max := 1000 }
        (Except.error ()) (Except.ok []) (Except.error ()) true true 5).crashed = false ∧
    orderStatus
      (cycleSymbol
        [{ order_id := 1, symbol := "BTCUSDT", side := "BUY", price := 100,
           volume := 1, status := "OPEN", created_at := 0 }]
        "BTCUSDT" { fee_percent := 1/10, confirm_order := false }
        { profit_percent := 1, volume_buy := 1, volume_sell := 2,
          price_min := 0, price_max := 1000 }
        (Except.error ()) (Except.ok []) (Except.error ()) true true 5).db 1
      = some "FILLED" ∧
    (cycleSymbol
        [{ order_id := 1, symbol := "BTCUSDT", side := "BUY", price := 100,
           volume := 1, status := "OPEN", created_at := 0 }]
        "BTCUSDT" { fee_percent := 1/10, confirm_order := false }
        { profit_percent := 1, volume_buy := 1, volume_sell := 2,
          price_min := 0, price_max := 1000 }
        (Except.error ()) (Except.ok []) (Except.error ()) true true 5).results.length = 1 ∧
    (cycleSymbol
        [{ order_id := 1, symbol := "BTCUSDT", side := "BUY", price := 100,
           volume := 1, status := "OPEN", created_at := 0 }]
        "BTCUSDT" { fee_percent := 1/10, confirm_order := false }
        { profit_percent := 1, volume_buy := 1, volume_sell := 2,
          price_min := 0, price_max := 1000 }
        (Except.error ()) (Except.ok []) (Except.error ()) true true 5).render
      = RenderOutcome.typeError := by
  refine ⟨rfl, ?_⟩
  rw [cycleSymbol_open_nil
    [{ order_id := 1, symbol := "BTCUSDT", side := "BUY", price := 100,
       volume := 1, status := "OPEN", created_at := 0 }]
    "BTCUSDT" { fee_percent := 1/10, confirm_order := false }
    { profit_percent := 1, volume_buy := 1, volume_sell := 2,
      price_min := 0, price_max := 1000 }
    (Except.error ()) (Except.ok []) (Except.error ()) true true 5 rfl]
  have hfills : get_filled_orders
      [{ order_id := 1, symbol := "BTCUSDT", side := "BUY", price := 100,
         volume := 1, status := "OPEN", created_at := 0 }] ["BTCUSDT"]
      = [{ order_id := 1, symbol := "BTCUSDT", side := "BUY", price := 100,
           volume := 1, status := "OPEN", created_at := 0 }] := rfl
  rw [hfills]
  have hplace : place_opposite_order "BUY" 100
      { fee_percent := 1/10, confirm_order := false }
      { profit_percent := 1, volume_buy := 1, volume_sell := 2,
        price_min := 0, price_max := 1000 }
      (Except.error ()) true true
      = PlaceResult.placed SIDE_SELL 2 (506/5) (506/5) := by
    rw [show ("BUY" : String) = SIDE_BUY from rfl, place_buy_eq]
    norm_num [confirmAndPlace, roundPrec, round_eq]
  have hpf : processFills { fee_percent := 1/10, confirm_order := false }
      { profit_percent := 1, volume_buy := 1, volume_sell := 2,
        price_min := 0, price_max := 1000 }
      (Except.error ()) true true
      [{ order_id := 1, symbol := "BTCUSDT", side := "BUY", price := 100,
         volume := 1, status := "OPEN", created_at := 0 }]
      [{ order_id := 1, symbol := "BTCUSDT", side := "BUY", price := 100,
         volume := 1, status := "OPEN", created_at := 0 }]
      = ([{ order_id := 1, symbol := "BTCUSDT", side := "BUY", price := 100,
            volume := 1, status := "FILLED", created_at := 0 }],
         [PlaceResult.placed SIDE_SELL 2 (506/5) (506/5)], false) := by
    rw [processFills_cons]
    rw [show place_opposite_order
        ({ order_id := 1, symbol := "BTCUSDT", side := "BUY", price := 100,
           volume := 1, status := "OPEN", created_at := 0 } : Order).side
        ({ order_id := 1, symbol := "BTCUSDT", side := "BUY", price := 100,
           volume := 1, status := "OPEN", created_at := 0 } : Order).price
        { fee_percent := 1/10, confirm_order := false }
        { profit_percent := 1, volume_buy := 1, volume_sell := 2,
          price_min := 0, price_max := 1000 }
        (Except.error ()) true true
        = PlaceResult.placed SIDE_SELL 2 (506/5) (506/5) from hplace]
    rfl
  rw [hpf]
  refine ⟨rfl, rfl, rfl, rfl⟩

/-! ## Remaining witnesses -/

theorem adaptive_guard_witness :
    place_opposite_order SIDE_SELL 103 { fee_percent := 0, confirm_order := true }
        { profit_percent := 0, volume_buy := 1, volume_sell := 1, price_min := 0,
          price_max := 1000, adaptive_limit_percent := 2, moving_average_period_min := 5 }
        (Except.ok [{ close := 100 }]) true true
      = PlaceResult.skippedAdaptive SIDE_BUY 1
          (103 - 103 * ((0 : ℚ) / 100) - 103 * 1 * ((0 : ℚ) / 100)) 100
          (100 * (1 + (2 : ℚ) / 100)) :=
  (adaptive_guard.1 103 { fee_percent := 0, confirm_order := true }
    { profit_percent := 0, volume_buy := 1, volume_sell := 1, price_min := 0,
      price_max := 1000, adaptive_limit_percent := 2, moving_average_period_min := 5 }
    (Except.ok [{ close := 100 }]) true true 100
    (by norm_num) (by norm_num) (by norm_num) (by norm_num)
    (by norm_num [fetchMovingAverage, get_moving_average])).1 (by norm_num)

theorem moving_average_spec_witness :
    get_moving_average [{ close := 1 }, { close := 3 }]
      = Except.ok (([{ close := 1 }, { close := 3 }].map Kline.close).sum
          / (([{ close := 1 }, { close := 3 }] : List Kline).length : ℚ)) :=
  moving_average_spec.1 [{ close := 1 }, { close := 3 }] (by decide)

theorem side_precondition_witness :
    place_opposite_order "HOLD" 100 { fee_percent := 0, confirm_order := true }
        { profit_percent := 0, volume_buy := 1, volume_sell := 1,
          price_min := 0, price_max := 1000 }
        (Except.error ()) true true = PlaceResult.unboundLocalError ∧
    (place_opposite_order "BUY" 100 { fee_percent := 0, confirm_order := true }
        { profit_percent := 0, volume_buy := 1, volume_sell := 1,
          price_min := 0, price_max := 1000 }
        (Except.error ()) true true).counterSide.isSome = true :=
  ⟨side_precondition.1 "HOLD" 100 { fee_percent := 0, confirm_order := true }
      { profit_percent := 0, volume_buy := 1, volume_sell := 1,
        price_min := 0, price_max := 1000 }
      (Except.error ()) true true (by decide) (by decide),
   (side_precondition.2 "BUY" 100 { fee_percent := 0, confirm_order := true }
      { profit_percent := 0, volume_buy := 1, volume_sell := 1,
        price_min := 0, price_max := 1000 }
      (Except.error ()) true true (Or.inl rfl)).1⟩

end BinanceBot
